import Mathlib

/-!
Verification of the `fog_product` pipeline (GOES-16 fog/BTD product).

The repository is three Python files; the logic relevant to the claims lives
in `helpers/utilities.py` (class `Utilities`: `download_CMI`, `get_ds`,
`proj_ret`, `plot_map`) and the driver `fog_product.py`.

Shallow embedding conventions used throughout:
* Numeric samples, calibration parameters and coordinates are modelled by `ℚ`
  (the code's float arithmetic, taken at exact-arithmetic level).
* A 2D numpy array is a list of rows (`Grid`), row-major as `ReadAsArray`
  yields it.
* GDAL metadata is a partial map from key strings to metadata values.  A
  metadata value is either a numeric-content string (modelled by its parsed
  numeric content, `MetaVal.num`) or a non-numeric string such as the
  acquisition time stamp (`MetaVal.str`).  Python's `float(v)` raises
  `TypeError` on `None` (an absent key, since `dict.get` returns `None`) and
  `ValueError` on a non-numeric string; both are modelled by `Except.error`.
* External effects (S3 listing, the filesystem, stdout) are made explicit:
  the S3 `list_objects_v2` response is an oracle argument
  (`Option (List String)`: `none` when the response carries no `Contents`
  key), the filesystem is the list of existing paths, and the outcome record
  carries the new filesystem, the keys actually transferred over the network
  and the printed messages.
-/

namespace FogProduct

/-- A 2D array (numpy array read by `ReadAsArray`), as a list of rows. -/
abbrev Grid := List (List ℚ)

/-! ### Reader / Calibrator: `Utilities.get_ds` (`helpers/utilities.py` 70–86) -/

/-- A GDAL metadata value.  All raw metadata values are strings; a string
with numeric content is modelled by that content (`num q`), any other string
(e.g. the `NC_GLOBAL#time_coverage_start` time stamp) by `str s`. -/
inductive MetaVal where
  | num (q : ℚ)
  | str (s : String)
deriving DecidableEq, Repr

/-- Python `float(metadata.get(key))`: `dict.get` yields `None` for an absent
key and `float(None)` raises `TypeError`; `float` of a non-numeric string
raises `ValueError`.  Both exceptions are `Except.error`. -/
def pyFloat : Option MetaVal → Except String ℚ
  | none => Except.error "TypeError: float() argument is None"
  | some (MetaVal.num q) => Except.ok q
  | some (MetaVal.str _) => Except.error "ValueError: could not convert string to float"

/-- The opened NetCDF sub-dataset (`gdal.Open(NETCDF:...)`): its header
metadata dictionary and its full sample array (`ReadAsArray(0, 0,
RasterXSize, RasterYSize)`). -/
structure NCHandle where
  metadata : String → Option MetaVal
  data : Grid

/-- The scale/offset/correction application of `get_ds`, line 85:
`ds = (ds * scale + offset) + k`, per element. -/
def calibrate (scale offset k x : ℚ) : ℚ :=
  (x * scale + offset) + k

/-- `Utilities.get_ds` (lines 70–86), after the file has been opened to the
handle `img`.  Reads the three numeric metadata fields through `float(...)`
(each raising on an absent key), reads the time stamp with a bare
`metadata.get` (no conversion, hence no exception on absence), and applies
scale/offset/correction to every sample.  Returns `(dtime, undef, ds)`; the
opaque GDAL handle `img` also returned by the Python code is its input here
and carries no further information. -/
def get_ds (img : NCHandle) (v : String) (k : ℚ) :
    Except String (Option MetaVal × ℚ × Grid) := do
  let scale ← pyFloat (img.metadata (v ++ "#scale_factor"))
  let offset ← pyFloat (img.metadata (v ++ "#add_offset"))
  let undef ← pyFloat (img.metadata (v ++ "#_FillValue"))
  let dtime := img.metadata "NC_GLOBAL#time_coverage_start"
  let ds := img.data.map (fun row => row.map (calibrate scale offset k))
  return (dtime, undef, ds)

/-! ### Reprojector: `Utilities.proj_ret` (`helpers/utilities.py` 89–117) -/

/-- The `outputBounds` tuple built by `proj_ret`, line 108:
`outputBounds = (extent[0], extent[3], extent[2], extent[1])`. -/
def proj_ret_outputBounds (extent : List ℚ) : ℚ × ℚ × ℚ × ℚ :=
  (extent.getD 0 0, extent.getD 3 0, extent.getD 2 0, extent.getD 1 0)

/-- The corner ordering the spec claims the reprojector produces:
"[min-lon, max-lat, max-lon, min-lat]", read off a caller extent
`[min-lon, max-lon, min-lat, max-lat]`.  Stated from the spec's words, to be
compared with `proj_ret_outputBounds` (which is from the source). -/
def specClaimedBounds (extent : List ℚ) : ℚ × ℚ × ℚ × ℚ :=
  (extent.getD 0 0, extent.getD 3 0, extent.getD 1 0, extent.getD 2 0)

/-- The raster sizes handed to `driver.Create('raw', ds.shape[0],
ds.shape[1], 1, ...)` in `proj_ret`, line 102: GDAL's `Create` takes
`(name, xsize, ysize, bands, type)`, so `xsize` receives `ds.shape[0]` (the
row count) and `ysize` receives `ds.shape[1]` (the column count of a row). -/
def proj_ret_rawXSize (ds : Grid) : Nat :=
  ds.length

/-- See `proj_ret_rawXSize`: the `ysize` argument of `driver.Create`. -/
def proj_ret_rawYSize (ds : Grid) : Nat :=
  (ds.headD []).length

/-- `ds.shape[0]` of a row-major 2D array: the number of rows. -/
def shape0 (ds : Grid) : Nat :=
  ds.length

/-- `ds.shape[1]` of a row-major 2D array: the number of columns. -/
def shape1 (ds : Grid) : Nat :=
  (ds.headD []).length

/-- The fixed output resolution of `proj_ret` (`xRes = 0.02, yRes = 0.02`,
lines 112–113). -/
def warpRes : ℚ :=
  2 / 100

/-! ### Driver constants: `fog_product.py` -/

/-- `extent = [-60.0, -35.0, -45.0, -25.0]` (`fog_product.py` line 8), in the
caller's `[min-lon, max-lon, min-lat, max-lat]` convention. -/
def fogExtent : List ℚ :=
  [-60, -35, -45, -25]

/-- Modelled from the spec: the warp output grid "covers" the requested
geographic box at the fixed resolution, so its cell counts are the longitude
span and the latitude span of the caller's extent divided by the resolution.
(The actual pixel count is produced inside the external resampling library;
only the extent and the resolution come from the source.) -/
def lonCells : ℚ :=
  (fogExtent.getD 1 0 - fogExtent.getD 0 0) / warpRes

/-- Modelled from the spec: latitude-direction cell count, see `lonCells`. -/
def latCells : ℚ :=
  (fogExtent.getD 3 0 - fogExtent.getD 2 0) / warpRes

/-! ### Band Combiner: `ds = ds_13 - ds` (`fog_product.py` lines 17–27) -/

/-- The per-pixel difference `ds_13 - ds` of the driver: numpy's element-wise
subtraction of two same-shape 2D arrays, first operand the band-13 grid,
second the band-7 grid. -/
def bandDiff (a b : Grid) : Grid :=
  List.zipWith (fun ra rb => List.zipWith (fun x y => x - y) ra rb) a b

/-- Two grids have identical shape: same row count and, row by row, the same
column count. -/
def sameShape (a b : Grid) : Prop :=
  a.length = b.length ∧ ∀ i : Nat, (a.getD i []).length = (b.getD i []).length

/-! ### Fetcher: `Utilities.download_CMI` (`helpers/utilities.py` 20–67)

The datetime formatting and the S3 key prefix derivation only parameterize
the external `list_objects_v2` call, whose response we take as an oracle
argument.  `none` models a response without a `Contents` key; `some keys`
models `Contents` as its list of object keys, in listing order. -/

/-- Python `str.split(sep)` for a one-character separator, on the character
list of the string: splits at every occurrence of `sep`, keeping empty
pieces, and yields at least one piece. -/
def splitOnChar (sep : Char) : List Char → List (List Char)
  | [] => [[]]
  | c :: rest =>
      match splitOnChar sep rest, decide (c = sep) with
      | r, true => [] :: r
      | [], false => [[c]]
      | h :: t, false => (c :: h) :: t

/-- `file_name = key.split('/')[-1].split('.')[0]` (line 58): the base name
of an object key, extension stripped.  `splitOnChar` never returns an empty
list, so the defaults are never used. -/
def baseName (key : String) : String :=
  String.mk ((splitOnChar '.' ((splitOnChar '/' key.data).getLastD [])).headD [])

/-- `path_file = f'.../{file_name}.nc'` (line 61): the local path an object
key is saved to. -/
def pathOf (path_dest key : String) : String :=
  path_dest ++ "/" ++ baseName key ++ ".nc"

/-- The observable outcome of one `download_CMI` call: the Python return
value (`Sum.inl (-1)` for the numeric sentinel, `Sum.inr name` for a base
name), the filesystem afterwards, the object keys actually transferred over
the network (`s3_client.download_file` calls), and the printed messages. -/
structure DLOutcome where
  ret : Int ⊕ String
  fs : List String
  downloads : List String
  msgs : List String
deriving DecidableEq, Repr

/-- The `for obj in s3_result['Contents']` loop (lines 56–66): walks the
object keys carrying the filesystem, the network transfers so far, the
messages so far and the current value of the `file_name` variable; a key
whose local path already exists is only reported, any other key is
downloaded (its path now exists).  After the loop the function returns
`f'{file_name}'`, i.e. the name from the last iteration. -/
def dlLoop (path_dest : String) :
    List String → List String → List String → List String → String → DLOutcome
  | [], fs, dls, msgs, fname => ⟨Sum.inr fname, fs, dls, msgs⟩
  | key :: rest, fs, dls, msgs, _ =>
      let file_name := baseName key
      let path_file := pathOf path_dest key
      if path_file ∈ fs then
        dlLoop path_dest rest fs dls
          (msgs ++ ["File " ++ path_file ++ " exists"]) file_name
      else
        dlLoop path_dest rest (path_file :: fs) (dls ++ [key])
          (msgs ++ ["Downloading file " ++ path_file]) file_name

/-- `Utilities.download_CMI` (lines 20–67) given the oracle S3 listing
response and the current filesystem.  Without a `Contents` key it prints the
diagnostic and returns the sentinel `-1` (lines 49–52); otherwise it runs
the download loop over the listed keys.  (With `some []` Python would raise
`NameError` on the unbound `file_name`; the model returns the initial dummy
name, and every theorem touching the `some` case assumes a non-empty
listing.) -/
def download_CMI (yyyymmddhhmn : String) (band : Int) (path_dest : String)
    (s3Contents : Option (List String)) (fs : List String) : DLOutcome :=
  match s3Contents with
  | none =>
      ⟨Sum.inl (-1), fs, [],
        ["No files found for the date: " ++ yyyymmddhhmn ++ ", Band-" ++ toString band]⟩
  | some keys => dlLoop path_dest keys fs [] [] ""

/-! ## Helper lemmas -/

theorem getD_map_of_lt {α β : Type} (f : α → β) (l : List α) (i : Nat)
    (h : i < l.length) (d : β) (d' : α) :
    (l.map f).getD i d = f (l.getD i d') := by
  rw [List.getD_eq_getElem _ _ (by simpa using h), List.getD_eq_getElem _ _ h,
    List.getElem_map]

/-- Unfolding of the download loop at a cons cell. -/
theorem dlLoop_cons (dest key : String) (rest fs dls msgs : List String) (f : String) :
    dlLoop dest (key :: rest) fs dls msgs f =
      if pathOf dest key ∈ fs then
        dlLoop dest rest fs dls
          (msgs ++ ["File " ++ pathOf dest key ++ " exists"]) (baseName key)
      else
        dlLoop dest rest (pathOf dest key :: fs) (dls ++ [key])
          (msgs ++ ["Downloading file " ++ pathOf dest key]) (baseName key) :=
  rfl

/-- The download loop never removes a path from the filesystem. -/
theorem dlLoop_fs_mono (dest : String) (keys : List String) :
    ∀ fs dls msgs f, fs ⊆ (dlLoop dest keys fs dls msgs f).fs := by
  induction keys with
  | nil =>
      intro fs dls msgs f
      exact List.Subset.refl fs
  | cons key rest ih =>
      intro fs dls msgs f
      rw [dlLoop_cons]
      by_cases h : pathOf dest key ∈ fs
      · simpa [h] using ih fs dls _ _
      · simp only [h, if_false]
        exact List.Subset.trans (List.subset_cons_self _ _) (ih _ _ _ _)

/-- After the download loop, every listed key's local path exists. -/
theorem dlLoop_fs_contains (dest : String) (keys : List String) :
    ∀ fs dls msgs f, ∀ key ∈ keys, pathOf dest key ∈ (dlLoop dest keys fs dls msgs f).fs := by
  induction keys with
  | nil =>
      intro fs dls msgs f key hk
      exact absurd hk (List.not_mem_nil key)
  | cons key rest ih =>
      intro fs dls msgs f key' hk'
      rw [dlLoop_cons]
      rcases List.mem_cons.mp hk' with hEq | hMem
      · subst hEq
        by_cases h : pathOf dest key' ∈ fs
        · simpa [h] using dlLoop_fs_mono dest rest fs dls _ _ h
        · simp only [h, if_false]
          exact dlLoop_fs_mono dest rest _ _ _ _ (List.mem_cons_self _ _)
      · by_cases h : pathOf dest key ∈ fs
        · simpa [h] using ih fs dls _ _ key' hMem
        · simp only [h, if_false]
          exact ih _ _ _ _ key' hMem

/-- If every listed key's local path already exists, the loop transfers
nothing and leaves the filesystem unchanged. -/
theorem dlLoop_all_present (dest : String) (keys : List String) :
    ∀ fs dls msgs f, (∀ k ∈ keys, pathOf dest k ∈ fs) →
      (dlLoop dest keys fs dls msgs f).fs = fs ∧
      (dlLoop dest keys fs dls msgs f).downloads = dls := by
  induction keys with
  | nil =>
      intro fs dls msgs f _
      exact ⟨rfl, rfl⟩
  | cons key rest ih =>
      intro fs dls msgs f h
      rw [dlLoop_cons]
      have hk : pathOf dest key ∈ fs := h key (List.mem_cons_self _ _)
      simp only [hk, if_true]
      exact ih fs dls _ _ (fun k hkr => h k (List.mem_cons_of_mem _ hkr))

/-- A non-empty listing makes the loop return the base name of the last key,
whatever the filesystem and accumulators are. -/
theorem dlLoop_ret (dest : String) (keys : List String) :
    ∀ fs dls msgs f d, keys ≠ [] →
      (dlLoop dest keys fs dls msgs f).ret = Sum.inr (baseName (keys.getLastD d)) := by
  induction keys with
  | nil =>
      intro fs dls msgs f d h
      exact absurd rfl h
  | cons key rest ih =>
      intro fs dls msgs f d _
      rw [dlLoop_cons, List.getLastD_cons]
      rcases eq_or_ne rest [] with hrest | hrest
      · subst hrest
        by_cases h : pathOf dest key ∈ fs <;> simp [h, dlLoop]
      · by_cases h : pathOf dest key ∈ fs
        · simpa [h] using ih fs dls _ _ key hrest
        · simp only [h, if_false]
          exact ih _ _ _ _ key hrest

/-- With pairwise-distinct derived paths, the loop transfers exactly the
keys whose local path is missing at entry, in listing order. -/
theorem dlLoop_downloads_filter (dest : String) (keys : List String) :
    ∀ fs dls msgs f, (keys.map (fun k => pathOf dest k)).Nodup →
      (dlLoop dest keys fs dls msgs f).downloads
        = dls ++ keys.filter (fun k => pathOf dest k ∉ fs) := by
  induction keys with
  | nil =>
      intro fs dls msgs f _
      simp [dlLoop]
  | cons key rest ih =>
      intro fs dls msgs f hnd
      rw [List.map_cons, List.nodup_cons] at hnd
      obtain ⟨hhead, hrest⟩ := hnd
      rw [dlLoop_cons]
      by_cases h : pathOf dest key ∈ fs
      · rw [if_pos h, ih fs dls _ _ hrest, List.filter_cons]
        simp [h]
      · rw [if_neg h, ih _ _ _ _ hrest, List.filter_cons]
        have hcongr : rest.filter (fun k => pathOf dest k ∉ pathOf dest key :: fs)
            = rest.filter (fun k => pathOf dest k ∉ fs) := by
          apply List.filter_congr
          intro k hk
          have hne : pathOf dest k ≠ pathOf dest key := by
            intro hEq
            exact hhead (hEq ▸ List.mem_map_of_mem _ hk)
          simp [List.mem_cons, hne, h]
        rw [hcongr]
        simp [h]

/-! ## Claims -/

/-- C1 (counterexample): at the driver's extent `[-60, -35, -45, -25]`
(min-lon, max-lon, min-lat, max-lat), the `outputBounds` tuple the code
builds is `(-60, -25, -45, -35)` = `(min-lon, max-lat, min-lat, max-lon)`,
which differs from the spec's claimed ordering
`[min-lon, max-lat, max-lon, min-lat]` = `(-60, -25, -35, -45)`. -/
theorem C1_counterexample :
    proj_ret_outputBounds fogExtent ≠ specClaimedBounds fogExtent ∧
    proj_ret_outputBounds fogExtent = (-60, -25, -45, -35) ∧
    specClaimedBounds fogExtent = (-60, -25, -35, -45) := by
  refine ⟨?_, rfl, rfl⟩
  norm_num [proj_ret_outputBounds, specClaimedBounds, fogExtent]

/-- C1 (amended): for every caller extent `[min-lon, max-lon, min-lat,
max-lat]`, `proj_ret` reorders it into `(min-lon, max-lat, min-lat,
max-lon)` — indices (0, 3, 2, 1) — when building the warp output bounds. -/
theorem C1_bounds_reordering (minLon maxLon minLat maxLat : ℚ) :
    proj_ret_outputBounds [minLon, maxLon, minLat, maxLat]
      = (minLon, maxLat, minLat, maxLon) :=
  rfl

/-- C2: whenever the three numeric metadata fields are present with contents
`s`, `o`, `u`, `get_ds` succeeds and the calibrated grid it produces has the
shape of the raw array and, element-wise, the value `x * s + o + k`. -/
theorem C2_calibration_affine (img : NCHandle) (v : String) (k s o u : ℚ)
    (hs : img.metadata (v ++ "#scale_factor") = some (MetaVal.num s))
    (ho : img.metadata (v ++ "#add_offset") = some (MetaVal.num o))
    (hu : img.metadata (v ++ "#_FillValue") = some (MetaVal.num u)) :
    ∃ dt ds, get_ds img v k = Except.ok (dt, u, ds) ∧
      ds.length = img.data.length ∧
      (∀ i, (ds.getD i []).length = (img.data.getD i []).length) ∧
      ∀ i j, i < img.data.length → j < (img.data.getD i []).length →
        (ds.getD i []).getD j 0 = (img.data.getD i []).getD j 0 * s + o + k := by
  refine ⟨img.metadata "NC_GLOBAL#time_coverage_start",
    img.data.map (fun row => row.map (calibrate s o k)), ?_, by simp, ?_, ?_⟩
  · simp only [get_ds, hs, ho, hu, pyFloat]
    rfl
  · intro i
    by_cases hi : i < img.data.length
    · rw [getD_map_of_lt _ _ _ hi _ []]
      simp
    · rw [List.getD_eq_default _ _ (by simpa using Nat.le_of_not_lt hi),
        List.getD_eq_default _ _ (Nat.le_of_not_lt hi)]
  · intro i j hi hj
    rw [getD_map_of_lt _ _ _ hi _ []]
    rw [getD_map_of_lt _ _ _ hj _ 0]
    simp [calibrate]

/-- C2 (witness): a concrete handle with scale 2, offset 10, fill −1 and a
2×2 raw array, calibrated with correction 5. -/
theorem C2_witness :
    ∃ dt ds,
      get_ds
        ⟨fun key =>
          if key = "CMI#scale_factor" then some (MetaVal.num 2)
          else if key = "CMI#add_offset" then some (MetaVal.num 10)
          else if key = "CMI#_FillValue" then some (MetaVal.num (-1))
          else if key = "NC_GLOBAL#time_coverage_start" then
            some (MetaVal.str "2021-07-07T10:00:20.4Z")
          else none,
         [[1, 2], [3, 4]]⟩ "CMI" 5 = Except.ok (dt, -1, ds) ∧
      ds.length = ([[1, 2], [3, 4]] : Grid).length ∧
      (∀ i, (ds.getD i []).length = (([[1, 2], [3, 4]] : Grid).getD i []).length) ∧
      ∀ i j, i < ([[1, 2], [3, 4]] : Grid).length →
        j < (([[1, 2], [3, 4]] : Grid).getD i []).length →
        (ds.getD i []).getD j 0
          = (([[1, 2], [3, 4]] : Grid).getD i []).getD j 0 * 2 + 10 + 5 :=
  C2_calibration_affine _ "CMI" 5 2 10 (-1) rfl rfl rfl

/-- C3: for same-shape grids, the band combiner's output (`ds_13 - ds`) at
every in-range index pair equals the element of the first grid minus the
element of the second. -/
theorem C3_band_difference (a b : Grid) (hab : sameShape a b) :
    ∀ i j, i < a.length → j < (a.getD i []).length →
      ((bandDiff a b).getD i []).getD j 0
        = (a.getD i []).getD j 0 - (b.getD i []).getD j 0 := by
  intro i j hi hj
  obtain ⟨hlen, hrow⟩ := hab
  have hib : i < b.length := hlen ▸ hi
  have hiz : i < (bandDiff a b).length := by
    simpa [bandDiff, hlen] using hi
  rw [List.getD_eq_getElem _ _ hiz, List.getD_eq_getElem _ _ hi,
    List.getD_eq_getElem _ _ hib]
  rw [List.getD_eq_getElem _ _ hi] at hj
  have hjb : j < b[i].length := by
    have h2 := hrow i
    rw [List.getD_eq_getElem _ _ hi, List.getD_eq_getElem _ _ hib] at h2
    omega
  simp only [bandDiff, List.getElem_zipWith]
  have hjz : j < (List.zipWith (fun x y => x - y) a[i] b[i]).length := by
    simp [hj, hjb]
  rw [List.getD_eq_getElem _ _ hjz, List.getD_eq_getElem _ _ hj,
    List.getD_eq_getElem _ _ hjb, List.getElem_zipWith]

/-- C3 (witness): `[[10, 20], [30, 40]] - [[1, 2], [3, 4]]` at index (1, 0). -/
theorem C3_witness :
    sameShape [[10, 20], [30, 40]] [[1, 2], [3, 4]] ∧
    ((bandDiff [[10, 20], [30, 40]] [[1, 2], [3, 4]]).getD 1 []).getD 0 0
      = (([[10, 20], [30, 40]] : Grid).getD 1 []).getD 0 0
        - (([[1, 2], [3, 4]] : Grid).getD 1 []).getD 0 0 := by
  have hs : sameShape [[10, 20], [30, 40]] [[1, 2], [3, 4]] := by
    refine ⟨rfl, ?_⟩
    intro i
    match i with
    | 0 => rfl
    | 1 => rfl
    | Nat.succ (Nat.succ n) => rfl
  exact ⟨hs, C3_band_difference _ _ hs 1 0 (by norm_num) (by norm_num)⟩

/-- C7 (counterexample): the driver extent spans 25 degrees of longitude but
20 degrees of latitude, so at the fixed 0.02-degree resolution the covered
box is 1250 by 1000 cells — the latitude direction is not ~10 degrees /
~500 cells as claimed. -/
theorem C7_counterexample :
    fogExtent.getD 1 0 - fogExtent.getD 0 0 = 25 ∧
    fogExtent.getD 3 0 - fogExtent.getD 2 0 = 20 ∧
    lonCells = 1250 ∧ latCells = 1000 ∧ latCells ≠ 500 := by
  norm_num [lonCells, latCells, fogExtent, warpRes]

/-- C7 (amended): the extent `[-60, -35, -45, -25]` reprojected at the fixed
0.02-degree resolution covers a 25-degree by 20-degree box of 1250 by 1000
cells. -/
theorem C7_grid_cells :
    lonCells = 1250 ∧ latCells = 1000 := by
  norm_num [lonCells, latCells, fogExtent, warpRes]

/-- C8: the calibration map of `get_ds` is strictly increasing in the raw
sample when the scale is positive. -/
theorem C8_calibrate_monotone (s o k : ℚ) (hs : 0 < s) (x y : ℚ) (hxy : x < y) :
    calibrate s o k x < calibrate s o k y := by
  have hmul := mul_lt_mul_of_pos_right hxy hs
  simp only [calibrate]
  linarith

/-- C8 (witness): scale 2, offset 3, correction 4, samples 1 < 5. -/
theorem C8_witness :
    (0 : ℚ) < 2 ∧ (1 : ℚ) < 5 ∧ calibrate 2 3 4 1 < calibrate 2 3 4 5 :=
  ⟨by norm_num, by norm_num, C8_calibrate_monotone 2 3 4 (by norm_num) 1 5 (by norm_num)⟩

/-- C10: `proj_ret` creates the in-memory raster with `xsize` equal to
`ds.shape[0]` (the row count) and `ysize` equal to `ds.shape[1]` (the column
count), so the raster dimensions agree with the array's row/column layout
(`xsize` = columns, `ysize` = rows) exactly when the array is square. -/
theorem C10_raw_raster_dims (ds : Grid) :
    proj_ret_rawXSize ds = shape0 ds ∧ proj_ret_rawYSize ds = shape1 ds ∧
    ((proj_ret_rawXSize ds = shape1 ds ∧ proj_ret_rawYSize ds = shape0 ds)
      ↔ shape0 ds = shape1 ds) := by
  refine ⟨rfl, rfl, ?_, ?_⟩
  · intro h
    exact h.1
  · intro h
    exact ⟨h, h.symm⟩

/-- C4: when the S3 response has no `Contents` key, `download_CMI` returns
the numeric sentinel −1, prints a diagnostic, performs no network transfer
and leaves the input directory's filesystem unchanged — no exception
escapes (the model is total on this branch). -/
theorem C4_no_files_sentinel (ymd : String) (band : Int) (dest : String) (fs : List String) :
    (download_CMI ymd band dest none fs).ret = Sum.inl (-1) ∧
    (download_CMI ymd band dest none fs).fs = fs ∧
    (download_CMI ymd band dest none fs).downloads = [] ∧
    (download_CMI ymd band dest none fs).msgs ≠ [] := by
  simp [download_CMI]

/-- C5: calling `download_CMI` twice with the same (timestamp, channel) —
hence the same listing — makes the second call transfer nothing over the
network (every derived local file already exists) and return the same base
name as the first call. -/
theorem C5_fetch_idempotent (ymd : String) (band : Int) (dest : String)
    (keys fs : List String) (h : keys ≠ []) :
    (download_CMI ymd band dest (some keys)
        ((download_CMI ymd band dest (some keys) fs).fs)).downloads = [] ∧
    (download_CMI ymd band dest (some keys)
        ((download_CMI ymd band dest (some keys) fs).fs)).ret
      = (download_CMI ymd band dest (some keys) fs).ret := by
  simp only [download_CMI]
  have hpresent : ∀ k ∈ keys, pathOf dest k ∈ (dlLoop dest keys fs [] [] "").fs :=
    dlLoop_fs_contains dest keys fs [] [] ""
  refine ⟨(dlLoop_all_present dest keys _ [] [] "" hpresent).2, ?_⟩
  rw [dlLoop_ret dest keys _ [] [] "" "" h, dlLoop_ret dest keys fs [] [] "" "" h]

/-- C5 (witness): a singleton listing fetched twice from an empty
filesystem. -/
theorem C5_fetch_idempotent_witness :
    ((["p/a.nc"] : List String) ≠ []) ∧
    ((download_CMI "202107071000" 13 "input" (some ["p/a.nc"])
        ((download_CMI "202107071000" 13 "input" (some ["p/a.nc"]) []).fs)).downloads = [] ∧
    (download_CMI "202107071000" 13 "input" (some ["p/a.nc"])
        ((download_CMI "202107071000" 13 "input" (some ["p/a.nc"]) []).fs)).ret
      = (download_CMI "202107071000" 13 "input" (some ["p/a.nc"]) []).ret) :=
  ⟨by decide, C5_fetch_idempotent "202107071000" 13 "input" ["p/a.nc"] [] (by decide)⟩

/-- C9: on a listing of more than one key whose derived local paths are
pairwise distinct, `download_CMI` transfers exactly the listed keys not
already present locally (in listing order) and returns the base name of the
last listed key only. -/
theorem C9_multi_object_listing (ymd : String) (band : Int) (dest : String)
    (keys fs : List String) (h1 : 1 < keys.length)
    (h2 : (keys.map (fun k => pathOf dest k)).Nodup) :
    (download_CMI ymd band dest (some keys) fs).downloads
      = keys.filter (fun k => pathOf dest k ∉ fs) ∧
    (download_CMI ymd band dest (some keys) fs).ret
      = Sum.inr (baseName (keys.getLastD "")) := by
  have hne : keys ≠ [] := by
    intro hk
    rw [hk] at h1
    exact absurd h1 (by decide)
  simp only [download_CMI]
  refine ⟨?_, dlLoop_ret dest keys fs [] [] "" "" hne⟩
  simpa using dlLoop_downloads_filter dest keys fs [] [] "" h2

/-- C9 (witness): two listed keys, the first one already present locally:
only the second is transferred and its base name is returned. -/
theorem C9_multi_object_listing_witness :
    1 < (["p/a.nc", "p/b.nc"] : List String).length ∧
    ((["p/a.nc", "p/b.nc"] : List String).map
      (fun k => pathOf "input" k)).Nodup ∧
    ((download_CMI "202107071000" 13 "input" (some ["p/a.nc", "p/b.nc"])
        ["input/a.nc"]).downloads
      = (["p/a.nc", "p/b.nc"] : List String).filter
          (fun k => pathOf "input" k ∉ (["input/a.nc"] : List String)) ∧
    (download_CMI "202107071000" 13 "input" (some ["p/a.nc", "p/b.nc"])
        ["input/a.nc"]).ret
      = Sum.inr (baseName ((["p/a.nc", "p/b.nc"] : List String).getLastD ""))) :=
  ⟨by decide, by decide,
    C9_multi_object_listing "202107071000" 13 "input" ["p/a.nc", "p/b.nc"]
      ["input/a.nc"] (by decide) (by decide)⟩

/-- C6 (counterexample): a handle whose metadata carries the three numeric
keys but not the global acquisition-start timestamp: `get_ds` does not
propagate any error — the bare `metadata.get` returns `None` for `dtime`
and the call succeeds. -/
theorem C6_counterexample :
    (NCHandle.mk
      (fun key =>
        if key = "CMI#scale_factor" then some (MetaVal.num 1)
        else if key = "CMI#add_offset" then some (MetaVal.num 0)
        else if key = "CMI#_FillValue" then some (MetaVal.num (-1))
        else none)
      [[1]]).metadata "NC_GLOBAL#time_coverage_start" = none ∧
    ∃ r, get_ds
      (NCHandle.mk
        (fun key =>
          if key = "CMI#scale_factor" then some (MetaVal.num 1)
          else if key = "CMI#add_offset" then some (MetaVal.num 0)
          else if key = "CMI#_FillValue" then some (MetaVal.num (-1))
          else none)
        [[1]]) "CMI" 0 = Except.ok r ∧ r.1 = none :=
  ⟨rfl, ⟨_, rfl, rfl⟩⟩

/-- C6 (amended): `get_ds` propagates an unhandled error whenever any of the
three float-converted metadata keys (scale factor, add offset, fill value)
is absent; the timestamp key is read without conversion, so its absence
raises nothing (see the counterexample). -/
theorem C6_missing_numeric_metadata_fails (img : NCHandle) (v : String) (k : ℚ)
    (h : img.metadata (v ++ "#scale_factor") = none ∨
         img.metadata (v ++ "#add_offset") = none ∨
         img.metadata (v ++ "#_FillValue") = none) :
    ∃ e, get_ds img v k = Except.error e := by
  rcases h with h | h | h
  · exact ⟨_, by simp only [get_ds, h, pyFloat]; rfl⟩
  · cases hs : img.metadata (v ++ "#scale_factor") with
    | none => exact ⟨_, by simp only [get_ds, hs, pyFloat]; rfl⟩
    | some mvs =>
        cases mvs with
        | num qs => exact ⟨_, by simp only [get_ds, hs, h, pyFloat]; rfl⟩
        | str ss => exact ⟨_, by simp only [get_ds, hs, pyFloat]; rfl⟩
  · cases hs : img.metadata (v ++ "#scale_factor") with
    | none => exact ⟨_, by simp only [get_ds, hs, pyFloat]; rfl⟩
    | some mvs =>
        cases mvs with
        | str ss => exact ⟨_, by simp only [get_ds, hs, pyFloat]; rfl⟩
        | num qs =>
            cases ho : img.metadata (v ++ "#add_offset") with
            | none => exact ⟨_, by simp only [get_ds, hs, ho, pyFloat]; rfl⟩
            | some mvo =>
                cases mvo with
                | str so => exact ⟨_, by simp only [get_ds, hs, ho, pyFloat]; rfl⟩
                | num qo => exact ⟨_, by simp only [get_ds, hs, ho, h, pyFloat]; rfl⟩

/-- C6 (witness): a handle with empty metadata: the scale-factor key is
absent and `get_ds` fails. -/
theorem C6_missing_numeric_metadata_witness :
    ((NCHandle.mk (fun _ => none) [[1]]).metadata ("CMI" ++ "#scale_factor") = none ∨
     (NCHandle.mk (fun _ => none) [[1]]).metadata ("CMI" ++ "#add_offset") = none ∨
     (NCHandle.mk (fun _ => none) [[1]]).metadata ("CMI" ++ "#_FillValue") = none) ∧
    ∃ e, get_ds (NCHandle.mk (fun _ => none) [[1]]) "CMI" 0 = Except.error e :=
  ⟨Or.inl rfl,
    C6_missing_numeric_metadata_fails (NCHandle.mk (fun _ => none) [[1]]) "CMI" 0 (Or.inl rfl)⟩

end FogProduct
